import Mathlib

/-!
# Verification of the MCP Hub multi-database manager

This file is a shallow embedding, in Lean 4, of the heterogeneous database
connection and query routing layer of the MCP Hub repository
(`app/core/multi_database_manager.py` and the `remove_database` route of
`app/api/databases.py`), together with a model of the behaviour of the
external libraries that layer drives:

* the Python `sqlite3` driver (parameter binding from a `dict`, implicit
  transactions around DML, autocommit of DDL, rollback of an open
  transaction when a connection is closed without `commit()`), and
* `starlette`/`fastapi` `HTTPException` (its `__str__` rendering).

Pure fragments of the Python code become Lean functions; the mutable
manager (`self.configs`, `self.connections`, `self.connection_pools`) and
the sqlite files on disk become explicit state values threaded through the
functions.  Since `execute_query` opens a fresh sqlite connection for each
call, runs a single statement and closes the connection, the per-call
effect on a database file is captured by a single-statement transition
function on the committed file contents.  External PostgreSQL servers are
abstracted by an environment (`Env`) that says which driver libraries are
importable, which connection strings are reachable, and what a fetch on a
pool returns.
-/

set_option maxRecDepth 4000

namespace MCPHub

/-- A SQLite value: the subset of storage classes the modelled statements
manipulate (integers, text, NULL). -/
inductive SqlValue where
  | int : Int → SqlValue
  | text : String → SqlValue
  | null : SqlValue
deriving DecidableEq, Repr

/-- One value position inside a SQL statement: either an inline literal, a
named placeholder `:key`, or a positional placeholder `?`. -/
inductive PArg where
  | lit : SqlValue → PArg
  | named : String → PArg
  | pos : PArg
deriving DecidableEq, Repr

/-- The statements the manager's code paths build or receive: plain DDL/DML
and `SELECT`, plus the fixed catalog queries that appear literally in
`multi_database_manager.py` (`sqlite_master` listing and search,
`PRAGMA table_info`, and the PostgreSQL `information_schema.columns`
query). -/
inductive SqlStmt where
  | createTable : String → List String → SqlStmt
  | insertInto : String → List String → List PArg → SqlStmt
  | selectWhere : List String → String → Option (String × PArg) → SqlStmt
  /-- `SELECT name as table_name, sql FROM sqlite_master WHERE type='table'
  AND name LIKE ? AND sql LIKE ? ORDER BY name;` — note the two positional
  placeholders, exactly as in `search_across_databases`. -/
  | masterSearch : SqlStmt
  /-- `SELECT name FROM sqlite_master WHERE type='table';` -/
  | masterTables : SqlStmt
  /-- `PRAGMA table_info(t);` -/
  | pragmaTableInfo : String → SqlStmt
  /-- The `information_schema.columns` catalog query of
  `get_database_schema` (PostgreSQL branch). -/
  | pgInfoSchemaColumns : SqlStmt
  /-- The `information_schema.columns` search query of
  `search_across_databases` (PostgreSQL branch). -/
  | pgColSearch : SqlStmt
deriving DecidableEq, Repr

/-- The same statements with every placeholder resolved to a value:
what actually runs after `sqlite3` has bound the parameters. -/
inductive GroundStmt where
  | createTable : String → List String → GroundStmt
  | insertInto : String → List String → List SqlValue → GroundStmt
  | selectWhere : List String → String → Option (String × SqlValue) → GroundStmt
  | masterSearch : SqlValue → SqlValue → GroundStmt
  | masterTables : GroundStmt
  | pragmaTableInfo : String → GroundStmt
  | pgInfoSchemaColumns : GroundStmt
  | pgColSearch : GroundStmt
deriving DecidableEq, Repr

/-- A row as the code sees it after `dict(row)`: an ordered association of
column name to value. -/
abbrev Row := List (String × SqlValue)

/-- A table inside a sqlite database file.  `sqlText` models the `sql`
column of `sqlite_master` (the stored `CREATE TABLE` source). -/
structure Table where
  name : String
  cols : List String
  rows : List (List SqlValue)
  sqlText : String
deriving DecidableEq, Repr

/-- The committed contents of one sqlite database file.  A file that does
not exist on disk behaves exactly like an empty one. -/
structure DbFile where
  tables : List Table
deriving DecidableEq, Repr

/-- The filesystem the sqlite backends live on: path → committed file. -/
structure World where
  files : List (String × DbFile)
deriving DecidableEq, Repr

/-! ## Association-list helpers (Python `dict` semantics)

Python dicts preserve insertion order; assignment to a fresh key appends,
assignment to an existing key updates in place, `del` removes the entry. -/

/-- `d[k] = v` on an insertion-ordered dict. -/
def alSet (k : String) (v : α) : List (String × α) → List (String × α)
  | [] => [(k, v)]
  | (k', v') :: rest =>
      if k' = k then (k, v) :: rest else (k', v') :: alSet k v rest

/-- `del d[k]` on an insertion-ordered dict. -/
def alErase (k : String) : List (String × α) → List (String × α)
  | [] => []
  | (k', v') :: rest =>
      if k' = k then rest else (k', v') :: alErase k rest

/-! ## The `sqlite3` driver model: parameter binding

The manager always passes `params or {}` — a `dict` — to
`Connection.execute`.  With a dict, `sqlite3` binds each statement
parameter by name: a positional `?` has no name and raises
`ProgrammingError`, a named `:key` missing from the dict also raises;
superfluous dict keys are ignored. -/

/-- Resolve one placeholder (at 1-based index `idx` among the statement's
parameters) against the parameter dict. -/
def resolveArg (params : List (String × SqlValue)) (idx : Nat) :
    PArg → Except String SqlValue
  | .lit v => .ok v
  | .named k =>
      match List.lookup k params with
      | some v => .ok v
      | none =>
          .error ("You did not supply a value for binding parameter :" ++ k ++ ".")
  | .pos =>
      .error ("Binding " ++ toString idx ++
        " has no name, but you supplied a dictionary (which has only names).")

/-- The parameter index after a value position: placeholders advance the
count, inline literals do not. -/
def nextIdx (a : PArg) (idx : Nat) : Nat :=
  match a with
  | .lit _ => idx
  | _ => idx + 1

/-- Resolve a list of value positions in order, numbering the placeholders
(not the inline literals) from `idx`. -/
def resolveArgs (params : List (String × SqlValue)) :
    Nat → List PArg → Except String (List SqlValue)
  | _, [] => .ok []
  | idx, a :: rest =>
      match resolveArg params idx a with
      | .error e => .error e
      | .ok v =>
          match resolveArgs params (nextIdx a idx) rest with
          | .error e => .error e
          | .ok vs => .ok (v :: vs)

/-- Bind a statement's placeholders against a parameter dict, as
`sqlite3` does when handed a dictionary. -/
def bindStmt (params : List (String × SqlValue)) :
    SqlStmt → Except String GroundStmt
  | .createTable t cols => .ok (.createTable t cols)
  | .insertInto t cols vals =>
      match resolveArgs params 1 vals with
      | .error e => .error e
      | .ok vs => .ok (.insertInto t cols vs)
  | .selectWhere cols t cond =>
      match cond with
      | none => .ok (.selectWhere cols t none)
      | some (c, a) =>
          match resolveArg params 1 a with
          | .error e => .error e
          | .ok v => .ok (.selectWhere cols t (some (c, v)))
  | .masterSearch =>
      match resolveArgs params 1 [PArg.pos, PArg.pos] with
      | .error e => .error e
      | .ok [v1, v2] => .ok (.masterSearch v1 v2)
      | .ok _ => .error "binding arity"
  | .masterTables => .ok .masterTables
  | .pragmaTableInfo t => .ok (.pragmaTableInfo t)
  | .pgInfoSchemaColumns => .ok .pgInfoSchemaColumns
  | .pgColSearch => .ok .pgColSearch

/-! ## The `sqlite3` driver model: statement execution

`execute_query` opens a fresh connection for every call, executes a single
statement, `fetchall()`s, reads `cursor.description`, and closes the
connection without ever calling `commit()`.  Under Python's default
`isolation_level` this means:

* `CREATE TABLE` (DDL) runs in autocommit mode and is persisted;
* `INSERT` (DML) opens an implicit transaction whose changes are discarded
  when the connection is closed without `commit()` — the committed file is
  unchanged;
* `SELECT`/`PRAGMA` read the committed file.

`sqliteRun` therefore returns the committed file as it stands after the
connection is closed, together with the fetched rows and
`cursor.description`'s column names (`none` when the statement produces no
result set). -/

/-- SQLite `LIKE` on a pattern whose only wildcard is `%`, over lowered
character lists, with a fuel counter for structural recursion (every call
shrinks `ps.length + hay.length`, so `ps.length + hay.length + 1` fuel
always suffices and the out-of-fuel branch is unreachable). -/
def likeMatchFuel : Nat → List Char → List Char → Bool
  | 0, _, _ => false
  | fuel + 1, ps, hay =>
      match ps, hay with
      | [], [] => true
      | [], _ :: _ => false
      | p :: pt, h =>
          if p = '%' then
            likeMatchFuel fuel pt h ||
              (match h with
               | [] => false
               | _ :: t => likeMatchFuel fuel (p :: pt) t)
          else
            match h with
            | [] => false
            | c :: t => (p = c) && likeMatchFuel fuel pt t

/-- The lower-cased characters of a string (`str.lower()`). -/
def lowerChars (s : String) : List Char :=
  s.toList.map Char.toLower

/-- `s LIKE pattern` (case-insensitive, `%` wildcard only). -/
def likeMatch (pattern s : String) : Bool :=
  likeMatchFuel ((lowerChars pattern).length + (lowerChars s).length + 1)
    (lowerChars pattern) (lowerChars s)

/-- `LIKE` applied to a bound parameter value: only text patterns match in
the modelled fragment. -/
def likeMatchVal (pat : SqlValue) (s : String) : Bool :=
  match pat with
  | .text p => likeMatch p s
  | _ => false

/-- Insert a table into a name-sorted list (for `ORDER BY name`). -/
def insertSorted (t : Table) : List Table → List Table
  | [] => [t]
  | u :: us => if t.name ≤ u.name then t :: u :: us else u :: insertSorted t us

/-- Sort tables by name (for `ORDER BY name`). -/
def sortTables (ts : List Table) : List Table :=
  ts.foldr insertSorted []

/-- The value of column `c` in a row of table `tbl` (rows are stored
aligned with `tbl.cols`). -/
def rowVal (tbl : Table) (row : List SqlValue) (c : String) : SqlValue :=
  (List.lookup c (tbl.cols.zip row)).getD .null

/-- SQL equality in a `WHERE col = v` condition: comparisons against
`NULL` match nothing. -/
def sqlEq (a b : SqlValue) : Bool :=
  match a, b with
  | .null, _ => false
  | _, .null => false
  | a, b => a = b

/-- The rendering of a `CREATE TABLE` statement as stored in
`sqlite_master.sql` (the model keeps only names, not column types). -/
def renderCreate (t : String) (cols : List String) : String :=
  "CREATE TABLE " ++ t ++ " (" ++ String.intercalate ", " cols ++ ")"

/-- `PRAGMA table_info` rows for a table: `(cid, name, type, notnull,
dflt_value, pk)`; the model does not track declared types or primary
keys. -/
def pragmaRows (tbl : Table) : List Row :=
  (tbl.cols.enum).map fun (i, c) =>
    [("cid", SqlValue.int i), ("name", SqlValue.text c),
     ("type", SqlValue.text ""), ("notnull", SqlValue.int 0),
     ("dflt_value", SqlValue.null), ("pk", SqlValue.int 0)]

/-- Execute one ground statement on a fresh connection to `file`, then
close the connection (no `commit()`).  Returns the committed file after
close, the `fetchall()` rows, and `cursor.description`'s column names. -/
def sqliteRun (file : DbFile) :
    GroundStmt → Except String (DbFile × List Row × Option (List String))
  | .createTable t cols =>
      if (file.tables.find? (fun tb => tb.name = t)).isSome then
        .error ("table " ++ t ++ " already exists")
      else
        -- DDL autocommits: the new table is persisted.
        .ok (⟨file.tables ++ [⟨t, cols, [], renderCreate t cols⟩]⟩, [], none)
  | .insertInto t cols vals =>
      match file.tables.find? (fun tb => tb.name = t) with
      | none => .error ("no such table: " ++ t)
      | some tbl =>
          if cols.length ≠ vals.length then
            .error (toString vals.length ++ " values for " ++
              toString cols.length ++ " columns")
          else
            match cols.find? (fun c => ¬ tbl.cols.contains c) with
            | some c => .error ("table " ++ t ++ " has no column named " ++ c)
            | none =>
                -- DML: the implicit transaction is rolled back when the
                -- connection closes without commit, so the committed file
                -- is unchanged.
                .ok (file, [], none)
  | .selectWhere cols t cond =>
      match file.tables.find? (fun tb => tb.name = t) with
      | none => .error ("no such table: " ++ t)
      | some tbl =>
          match cols.find? (fun c => ¬ tbl.cols.contains c) with
          | some c => .error ("no such column: " ++ c)
          | none =>
              match cond with
              | some (c, _) =>
                  if ¬ tbl.cols.contains c then
                    .error ("no such column: " ++ c)
                  else
                    let keep := tbl.rows.filter fun r =>
                      match cond with
                      | some (c', v) => sqlEq (rowVal tbl r c') v
                      | none => true
                    .ok (file,
                      keep.map (fun r => cols.map fun c' => (c', rowVal tbl r c')),
                      some cols)
              | none =>
                  .ok (file,
                    tbl.rows.map (fun r => cols.map fun c' => (c', rowVal tbl r c')),
                    some cols)
  | .masterSearch namePat sqlPat =>
      let hits := (sortTables file.tables).filter fun tb =>
        likeMatchVal namePat tb.name && likeMatchVal sqlPat tb.sqlText
      .ok (file,
        hits.map (fun tb =>
          [("table_name", SqlValue.text tb.name), ("sql", SqlValue.text tb.sqlText)]),
        some ["table_name", "sql"])
  | .masterTables =>
      .ok (file,
        file.tables.map (fun tb => [("name", SqlValue.text tb.name)]),
        some ["name"])
  | .pragmaTableInfo t =>
      match file.tables.find? (fun tb => tb.name = t) with
      | none => .ok (file, [], none)
      | some tbl =>
          .ok (file, pragmaRows tbl,
            some ["cid", "name", "type", "notnull", "dflt_value", "pk"])
  | .pgInfoSchemaColumns => .error "no such table: information_schema.columns"
  | .pgColSearch => .error "near \x22%\x22: syntax error"

/-! ## The manager's data model (`multi_database_manager.py`) -/

/-- `DatabaseType` enum. -/
inductive DatabaseType where
  | postgresql | sqlite | mysql | mongodb
deriving DecidableEq, Repr

/-- `str(DatabaseType.X)` as Python renders it inside the
"Unsupported database type" messages. -/
def DatabaseType.pyStr : DatabaseType → String
  | .postgresql => "DatabaseType.POSTGRESQL"
  | .sqlite => "DatabaseType.SQLITE"
  | .mysql => "DatabaseType.MYSQL"
  | .mongodb => "DatabaseType.MONGODB"

/-- `DatabaseConfig` dataclass. -/
structure DatabaseConfig where
  name : String
  type : DatabaseType
  host : String
  port : Nat
  database : String
  username : String
  password : String
  connection_string : Option String := none
  is_active : Bool := true
  max_connections : Nat := 10
  timeout : Nat := 30
deriving DecidableEq, Repr

/-- `QueryResult` dataclass.  `execution_time` is wall-clock time, which
the model does not measure; it is kept as a field fixed at `0`. -/
structure QueryResult where
  database_name : String
  query : SqlStmt
  data : List Row
  columns : List String
  row_count : Nat
  execution_time : Nat
  success : Bool
  error : Option String := none
deriving DecidableEq, Repr

/-- An asyncpg connection pool handle, identified by the connection string
it was created from. -/
structure Pool where
  connString : String
deriving DecidableEq, Repr

/-- A `self.connections` entry (`{'type': 'sqlite', 'path': …,
'config': …}`). -/
structure ConnEntry where
  typeName : String
  path : String
  config : DatabaseConfig
deriving DecidableEq, Repr

/-- The mutable fields of `MultiDatabaseManager`, all insertion-ordered
dicts.  (`self._lock` serializes `add_database` calls; the model is
sequential so the lock has no observable content.) -/
structure ManagerState where
  connections : List (String × ConnEntry) := []
  configs : List (String × DatabaseConfig) := []
  connection_pools : List (String × Pool) := []
deriving DecidableEq, Repr

/-- The external environment: which optional driver libraries imported
successfully, which PostgreSQL connection strings are reachable (so that
`asyncpg.create_pool` succeeds), and what a fetch on a pool returns
(`.error` is the message of the exception the driver raised). -/
structure Env where
  asyncpgAvailable : Bool
  aiomysqlAvailable : Bool
  pgReachable : List String
  pgFetch : String → SqlStmt → List SqlValue → Except String (List Row)

/-- Observable resource events: a connection checked out of / returned to
a backend (`pool.acquire`'s scope, or `sqlite3.connect`/`close`), and the
registry mutations performed by the `remove_database` route. -/
inductive Event where
  | acquire : String → Event
  | release : String → Event
  | removeConfig : String → Event
  | closePool : String → Event
deriving DecidableEq, Repr

/-- The `ValueError` message of `get_connection` for an unknown name. -/
def notFoundMsg (name : String) : String :=
  "Database " ++ name ++ " not found"

/-- `str(KeyError(k))` — Python renders the missing key with quotes. -/
def keyErrorMsg (k : String) : String :=
  "\x27" ++ k ++ "\x27"

/-- The failure `QueryResult` built in `execute_query`'s `except` clause. -/
def failRes (dbName : String) (q : SqlStmt) (e : String) : QueryResult :=
  { database_name := dbName, query := q, data := [], columns := [],
    row_count := 0, execution_time := 0, success := false, error := some e }

/-- The success `QueryResult` built at the end of `execute_query`'s `try`
block (`row_count = len(data)`). -/
def okRes (dbName : String) (q : SqlStmt) (data : List Row)
    (columns : List String) : QueryResult :=
  { database_name := dbName, query := q, data := data, columns := columns,
    row_count := data.length, execution_time := 0, success := true,
    error := none }

/-! ## `add_database` and its `_setup_*` helpers

Faithful to the source, `add_database` stores `config` into
`self.configs` *before* running the engine-specific setup; its blanket
`except` (and the `return False` branch for unsupported types) does not
remove that entry again.  `_setup_postgresql` fills in
`config.connection_string` (mutating the shared dataclass, hence also the
registered entry) before calling `asyncpg.create_pool`. -/

/-- The PostgreSQL connection string `_setup_postgresql` builds when the
config has none. -/
def buildConnString (c : DatabaseConfig) : String :=
  "postgresql://" ++ c.username ++ ":" ++ c.password ++ "@" ++ c.host ++
    ":" ++ toString c.port ++ "/" ++ c.database

/-- `MultiDatabaseManager.add_database`. -/
def addDatabase (env : Env) (s : ManagerState) (config : DatabaseConfig) :
    Bool × ManagerState :=
  if (List.lookup config.name s.configs).isSome then
    -- "Database {name} already exists"
    (false, s)
  else
    let s1 := { s with configs := alSet config.name config s.configs }
    match config.type with
    | .postgresql =>
        -- _setup_postgresql
        if ¬ env.asyncpgAvailable then
          -- ImportError("asyncpg is required …") caught by add_database
          (false, s1)
        else
          let connStr := (config.connection_string).getD (buildConnString config)
          let config2 := { config with connection_string := some connStr }
          let s2 := { s1 with configs := alSet config.name config2 s1.configs }
          if connStr ∈ env.pgReachable then
            let pools2 := alSet config.name (Pool.mk connStr) s2.connection_pools
            (true, { s2 with connection_pools := pools2 })
          else
            -- asyncpg.create_pool raised; re-raised, caught by
            -- add_database's except: returns False, config2 retained.
            (false, s2)
    | .sqlite =>
        -- _setup_sqlite never raises
        let conns2 := alSet config.name (ConnEntry.mk "sqlite" config.database config) s1.connections
        (true, { s1 with connections := conns2 })
    | .mysql =>
        -- _setup_mysql: ImportError when aiomysql missing, otherwise a
        -- placeholder that creates no pool.
        if env.aiomysqlAvailable then (true, s1) else (false, s1)
    | .mongodb =>
        -- "Unsupported database type": return False, config retained.
        (false, s1)

/-! ## `execute_query`

The body of the `try` block: `get_connection` (raising `ValueError` for an
unknown name or unsupported type, `KeyError` for a PostgreSQL config whose
pool is absent), then the engine-specific execution.  The result is the
`(data, columns)` pair on success or the raised exception's message, plus
the world after the sqlite connection is closed and the resource events
that occurred.  The scoped `async with`/`try: yield finally: close()`
structure of `get_connection` guarantees the release event on every exit
path that acquired a connection. -/
/-- `*params.values()` — the positional argument list `execute_query`
hands to `conn.fetch` (empty when `params` is `None`). -/
def paramVals (params : Option (List (String × SqlValue))) : List SqlValue :=
  match params with
  | some p => p.map Prod.snd
  | none => []

/-- `list(rows[0].keys()) if rows else []`. -/
def firstRowKeys (rows : List Row) : List String :=
  match rows with
  | [] => []
  | r :: _ => r.map Prod.fst

/-- The events of one scoped connection checkout (acquired and, on every
exit path of the scope, released). -/
def connEvents (dbName : String) : List Event :=
  [Event.acquire dbName, Event.release dbName]

/-- `sqlite3.connect(path)`'s view of the committed database: a missing
file behaves as an empty one. -/
def sqliteConnect (w : World) (path : String) : DbFile :=
  (List.lookup path w.files).getD ⟨[]⟩

def executeQueryTry (env : Env) (w : World) (s : ManagerState)
    (dbName : String) (q : SqlStmt) (params : Option (List (String × SqlValue))) :
    Except String (List Row × List String) × World × List Event :=
  match List.lookup dbName s.configs with
  | none => (.error (notFoundMsg dbName), w, [])
  | some config =>
    match config.type with
    | .postgresql =>
        match List.lookup dbName s.connection_pools with
        | none =>
            -- self.connection_pools[database_name] raises KeyError
            (.error (keyErrorMsg dbName), w, [])
        | some pool =>
            -- conn.fetch(query, *params.values()) / conn.fetch(query)
            match env.pgFetch pool.connString q (paramVals params) with
            | .error e => (.error e, w, connEvents dbName)
            | .ok rows => (.ok (rows, firstRowKeys rows), w, connEvents dbName)
    | .sqlite =>
        -- conn = sqlite3.connect(config.database);
        -- cursor = conn.execute(query, params or {})
        match bindStmt (params.getD []) q with
        | .error e => (.error e, w, connEvents dbName)
        | .ok g =>
            match sqliteRun (sqliteConnect w config.database) g with
            | .error e => (.error e, w, connEvents dbName)
            | .ok (file2, rows, desc) =>
                (.ok (rows, desc.getD []),
                  ⟨alSet config.database file2 w.files⟩, connEvents dbName)
    | _ =>
        -- get_connection: raise ValueError(f"Unsupported database type: …")
        (.error ("Unsupported database type: " ++ config.type.pyStr), w, [])

/-- `MultiDatabaseManager.execute_query`: the `try` body wrapped in the
blanket `except Exception` that converts any raised error into a failure
`QueryResult`.  No exception escapes to the caller. -/
def executeQuery (env : Env) (w : World) (s : ManagerState)
    (dbName : String) (q : SqlStmt) (params : Option (List (String × SqlValue))) :
    QueryResult × World × List Event :=
  match executeQueryTry env w s dbName q params with
  | (.ok (data, columns), w2, evs) => (okRes dbName q data columns, w2, evs)
  | (.error e, w2, evs) => (failRes dbName q e, w2, evs)

/-- `MultiDatabaseManager.execute_query_all_databases`: a sequential loop
over `self.configs` that queries every `is_active` backend and stores each
result under the backend's name.  (`execute_query` never raises, so the
loop's own `except` clause is unreachable.)  `executeAllStep` is the loop
body. -/
def executeAllStep (env : Env) (s : ManagerState) (q : SqlStmt)
    (params : Option (List (String × SqlValue)))
    (acc : List (String × QueryResult) × World) (e : String × DatabaseConfig) :
    List (String × QueryResult) × World :=
  if e.2.is_active then
    let r := executeQuery env acc.2 s e.1 q params
    (acc.1 ++ [(e.1, r.1)], r.2.1)
  else acc

def executeQueryAllDatabases (env : Env) (w : World) (s : ManagerState)
    (q : SqlStmt) (params : Option (List (String × SqlValue))) :
    List (String × QueryResult) × World :=
  s.configs.foldl (executeAllStep env s q params) ([], w)

/-! ## `get_database_schema` -/

/-- One element of the `tables` list of a schema dict: the PostgreSQL
branch stores raw catalog rows, the SQLite branch stores
`{'table_name': …, 'columns': …}` dicts. -/
inductive SchemaTable where
  | pgRow : Row → SchemaTable
  | sqliteTable : String → List Row → SchemaTable
deriving DecidableEq, Repr

/-- The dict returned by `get_database_schema` (when it returns one). -/
structure SchemaInfo where
  database_name : String
  typeName : String
  tables : List SchemaTable
  success : Bool
  error : Option String := none
deriving DecidableEq, Repr

/-- Python `table['name']` on a `sqlite_master` row. -/
def rowName (r : Row) : String :=
  match List.lookup "name" r with
  | some (.text s) => s
  | _ => ""

/-- `MultiDatabaseManager.get_database_schema`.  For a registered backend
whose type is neither PostgreSQL nor SQLite, neither branch of the `if`
chain matches and no exception is raised, so the Python function falls off
the end and returns `None` — modelled as `none`. -/
def getDatabaseSchema (env : Env) (w : World) (s : ManagerState)
    (dbName : String) : Option SchemaInfo × World :=
  match List.lookup dbName s.configs with
  | none =>
      -- self.configs[database_name] raises KeyError, caught by the
      -- blanket except: the 'unknown' error dict.
      (some { database_name := dbName, typeName := "unknown", tables := [],
              success := false, error := some (keyErrorMsg dbName) }, w)
  | some config =>
    match config.type with
    | .postgresql =>
        let (r, w2, _) := executeQuery env w s dbName .pgInfoSchemaColumns none
        (some { database_name := dbName, typeName := "postgresql",
                tables := r.data.map .pgRow, success := r.success }, w2)
    | .sqlite =>
        let (tr, w2, _) := executeQuery env w s dbName .masterTables none
        let step := fun (acc : List SchemaTable × World) (row : Row) =>
          let tname := rowName row
          let (cr, w3, _) := executeQuery env acc.2 s dbName (.pragmaTableInfo tname) none
          (acc.1 ++ [.sqliteTable tname cr.data], w3)
        let (tables, w4) := tr.data.foldl step ([], w2)
        (some { database_name := dbName, typeName := "sqlite",
                tables := tables, success := true }, w4)
    | _ => (none, w)

/-! ## `search_across_databases`

The SQLite branch always binds the dict
`{'table_pattern': …, 'search_term': '%…%'}` against the two positional
`?` placeholders of the `sqlite_master` search query, so the inner
`execute_query` always fails and the backend contributes `[]`.  A backend
whose type matches neither branch leaves the Python local `result` bound
to the *previous* iteration's value (or unbound on the first such
iteration, raising `NameError`, caught by the loop's `except` → `[]`);
the fold models this with `lastResult`. -/
/-- The parameter dict `search_across_databases` passes to
`execute_query`. -/
def searchParams (searchTerm tablePattern : String) : List (String × SqlValue) :=
  [("table_pattern", SqlValue.text tablePattern),
   ("search_term", SqlValue.text ("%" ++ searchTerm ++ "%"))]

/-- The body of `search_across_databases`' loop over `self.configs`. -/
def searchStep (env : Env) (s : ManagerState) (searchTerm tablePattern : String)
    (acc : List (String × List Row) × World × Option QueryResult)
    (e : String × DatabaseConfig) :
    List (String × List Row) × World × Option QueryResult :=
  if ¬ e.2.is_active then acc
  else
    match e.2.type with
    | .postgresql =>
        let r := executeQuery env acc.2.1 s e.1 .pgColSearch
          (some (searchParams searchTerm tablePattern))
        (acc.1 ++ [(e.1, if r.1.success then r.1.data else [])], r.2.1, some r.1)
    | .sqlite =>
        let r := executeQuery env acc.2.1 s e.1 .masterSearch
          (some (searchParams searchTerm tablePattern))
        (acc.1 ++ [(e.1, if r.1.success then r.1.data else [])], r.2.1, some r.1)
    | _ =>
        match acc.2.2 with
        | none =>
            -- NameError on `result`, caught: results[db_name] = []
            (acc.1 ++ [(e.1, [])], acc.2.1, acc.2.2)
        | some r =>
            -- stale `result` from the previous iteration
            (acc.1 ++ [(e.1, if r.success then r.data else [])], acc.2.1, acc.2.2)

def searchAcrossDatabases (env : Env) (w : World) (s : ManagerState)
    (searchTerm : String) (tablePattern : String := "%") :
    List (String × List Row) × World :=
  let out := s.configs.foldl (searchStep env s searchTerm tablePattern) ([], w, none)
  (out.1, out.2.1)

/-! ## The `remove_database` route (`app/api/databases.py`) -/

/-- `fastapi.HTTPException` (only the fields the route sets). -/
structure HTTPException where
  status_code : Nat
  detail : String
deriving DecidableEq, Repr

/-- Modelled from starlette: `HTTPException.__str__` renders
`f"{self.status_code}: {self.detail}"`; this is the `str(e)` the route's
`except` clause embeds into its 500 response. -/
def httpExcStr (e : HTTPException) : String :=
  toString e.status_code ++ ": " ++ e.detail

/-- The `remove_database` route handler.  Inside the `try` it deletes the
config *first* and only then closes and deletes the pool (when one
exists); when the name is absent it raises `HTTPException(404, …)`, which
— since `HTTPException` derives from `Exception` — is caught by the
route's own `except Exception` and re-raised as
`HTTPException(500, str(e))`.  The returned events record the order of
the registry mutation and the pool shutdown. -/
def removeDatabase (s : ManagerState) (dbName : String) :
    Except HTTPException (String × Bool) × ManagerState × List Event :=
  match List.lookup dbName s.configs with
  | some _ =>
      let s1 := { s with configs := alErase dbName s.configs }
      match List.lookup dbName s.connection_pools with
      | some _pool =>
          let s2 := { s1 with connection_pools := alErase dbName s1.connection_pools }
          (.ok ("Database " ++ dbName ++ " removed successfully", true), s2,
            [Event.removeConfig dbName, Event.closePool dbName])
      | none =>
          (.ok ("Database " ++ dbName ++ " removed successfully", true), s1,
            [Event.removeConfig dbName])
  | none =>
      let e404 : HTTPException := ⟨404, notFoundMsg dbName⟩
      (.error ⟨500, httpExcStr e404⟩, s, [])

/-! ## Claim-as-stated auxiliary predicates and concrete fixtures -/

/-- "Closes the pool before removing the config": in the event trace, the
`closePool` event for `n` occurs, and strictly before the `removeConfig`
event for `n` (`findIdx` returns the list length when no event matches). -/
def poolClosedFirst (tr : List Event) (n : String) : Bool :=
  decide (tr.findIdx (· == Event.closePool n) < tr.findIdx (· == Event.removeConfig n))
    && (tr.contains (Event.closePool n))

/-- An environment where both optional drivers imported but no PostgreSQL
server is reachable. -/
def envSqliteOnly : Env :=
  ⟨true, true, [], fun _ _ _ => .error "connection refused"⟩

/-- An environment where asyncpg failed to import
(`ASYNCPG_AVAILABLE = False`). -/
def envNoAsyncpg : Env :=
  ⟨false, true, [], fun _ _ _ => .error "connection refused"⟩

/-- The embedded-engine backend of the spec's concrete scenario. -/
def shopConfig : DatabaseConfig :=
  { name := "shop", type := .sqlite, host := "localhost", port := 0,
    database := "shop.db", username := "", password := "" }

/-- The registry after registering `shopConfig`. -/
def shopState : ManagerState := (addDatabase envSqliteOnly {} shopConfig).2

/-- An empty filesystem. -/
def emptyWorld : World := ⟨[]⟩

/-- A manager with nothing registered. -/
def emptyManager : ManagerState := {}

/-- `CREATE TABLE items(id INTEGER PRIMARY KEY, name TEXT, category TEXT)`. -/
def itemsCreate : SqlStmt := .createTable "items" ["id", "name", "category"]

/-- The filesystem after the `CREATE TABLE` (DDL autocommits). -/
def wAfterCreate : World :=
  (executeQuery envSqliteOnly emptyWorld shopState "shop" itemsCreate none).2.1

/-- `INSERT INTO items (name, category) VALUES (:name, :category)`. -/
def insertNamed : SqlStmt :=
  .insertInto "items" ["name", "category"] [.named "name", .named "category"]

/-- `INSERT INTO items (name, category) VALUES (?, ?)` — the repo test's
insert. -/
def insertPositional : SqlStmt :=
  .insertInto "items" ["name", "category"] [.pos, .pos]

/-- `{"name": "Hammer", "category": "tools"}`. -/
def hammerParams : List (String × SqlValue) :=
  [("name", .text "Hammer"), ("category", .text "tools")]

/-- `SELECT name FROM items WHERE category = 'tools'`. -/
def selectToolsLit : SqlStmt :=
  .selectWhere ["name"] "items" (some ("category", .lit (.text "tools")))

/-- `SELECT name FROM items WHERE category = :category`. -/
def selectNamed : SqlStmt :=
  .selectWhere ["name"] "items" (some ("category", .named "category"))

/-- `SELECT name FROM items WHERE category = ?`. -/
def selectPositional : SqlStmt :=
  .selectWhere ["name"] "items" (some ("category", .pos))

/-- `{"category": "tools"}`. -/
def categoryParams : List (String × SqlValue) := [("category", .text "tools")]

/-- The outcome of running the named-placeholder insert through
`execute_query`. -/
def insertNamedRun : QueryResult × World × List Event :=
  executeQuery envSqliteOnly wAfterCreate shopState "shop" insertNamed
    (some hammerParams)

/-- `sqlite3`'s `ProgrammingError` message for a positional placeholder
bound from a dict. -/
def bindErrMsg : String :=
  "Binding 1 has no name, but you supplied a dictionary (which has only names)."

/-- A PostgreSQL config to register while its driver/server is down. -/
def pgShopConfig : DatabaseConfig :=
  { name := "pgshop", type := .postgresql, host := "db.internal", port := 5432,
    database := "shop", username := "u", password := "pw" }

/-- A sqlite file `shop.db` containing a table named `widgets`. -/
def widgetsFile : DbFile :=
  ⟨[⟨"widgets", ["id", "description"], [], renderCreate "widgets" ["id", "description"]⟩]⟩

/-- A filesystem where the `shop` backend's file holds the `widgets`
table. -/
def widgetsWorld : World := ⟨[("shop.db", widgetsFile)]⟩

/-- A registry holding a registered PostgreSQL backend `shop` together
with its live pool. -/
def pgShopState : ManagerState :=
  { configs := [("shop", { pgShopConfig with name := "shop" })],
    connection_pools := [("shop", ⟨"cs"⟩)] }

/-- A registered MySQL backend (reachable by `add_database` when aiomysql
imports: `_setup_mysql` is a placeholder that registers the config with no
pool). -/
def mysqlConfig : DatabaseConfig :=
  { name := "metrics", type := .mysql, host := "h", port := 3306,
    database := "d", username := "u", password := "pw" }

/-- The registry after registering `mysqlConfig`. -/
def mysqlState : ManagerState := (addDatabase envSqliteOnly {} mysqlConfig).2

/-- A generic query used where the claim quantifies over queries. -/
def anyQuery : SqlStmt := .selectWhere ["name"] "items" none

/-- A well-formed environment: driver exceptions render to non-empty
messages (Python's `str(e)` for the driver errors the manager logs and
stores). -/
def EnvWF (env : Env) : Prop :=
  ∀ cs q vs m, env.pgFetch cs q vs = .error m → 0 < m.length

/-! # Theorems

First some shared helper lemmas, then one theorem per claim (with its
witness or counterexample where required). -/

theorem append_len_pos (a b : String) (ha : 0 < a.length) :
    0 < (a ++ b).length := by
  rw [String.length_append]; omega

theorem append3_len_pos (a b c : String) (ha : 0 < a.length) :
    0 < (a ++ b ++ c).length := by
  rw [String.length_append, String.length_append]; omega

/-- Every `sqlite3` binding error carries a non-empty message. -/
theorem resolveArg_error_pos {params : List (String × SqlValue)} {idx : Nat}
    {a : PArg} {e : String} (h : resolveArg params idx a = .error e) :
    0 < e.length := by
  cases a with
  | lit v => simp [resolveArg] at h
  | named k =>
      cases hl : List.lookup k params with
      | some v => simp only [resolveArg, hl] at h; cases h
      | none =>
          simp only [resolveArg, hl, Except.error.injEq] at h
          subst h
          exact append3_len_pos _ _ _ (by decide)
  | pos =>
      simp only [resolveArg, Except.error.injEq] at h
      subst h
      exact append3_len_pos _ _ _ (by decide)

/-- Binding error messages of a placeholder list are non-empty. -/
theorem resolveArgs_error_pos {params : List (String × SqlValue)} :
    ∀ {idx : Nat} {l : List PArg} {e : String},
      resolveArgs params idx l = .error e → 0 < e.length := by
  intro idx l
  induction l generalizing idx with
  | nil => intro e h; simp [resolveArgs] at h
  | cons a rest ih =>
      intro e h
      unfold resolveArgs at h
      split at h
      · rename_i heq
        cases h
        exact resolveArg_error_pos heq
      · split at h
        · rename_i heq
          cases h
          exact ih heq
        · cases h

theorem append_len_pos_right (a b : String) (hb : 0 < b.length) :
    0 < (a ++ b).length := by
  rw [String.length_append]; omega

/-- Binding a statement against a dict fails only with a non-empty
message. -/
theorem bindStmt_error_pos {params : List (String × SqlValue)} {q : SqlStmt}
    {e : String} (h : bindStmt params q = .error e) : 0 < e.length := by
  cases q with
  | createTable t cols => simp [bindStmt] at h
  | insertInto t cols vals =>
      simp only [bindStmt] at h
      split at h
      · rename_i heq
        simp only [Except.error.injEq] at h
        subst h
        exact resolveArgs_error_pos heq
      · exact Except.noConfusion h
  | selectWhere cols t cond =>
      simp only [bindStmt] at h
      split at h
      · exact Except.noConfusion h
      · split at h
        · rename_i heq
          simp only [Except.error.injEq] at h
          subst h
          exact resolveArg_error_pos heq
        · exact Except.noConfusion h
  | masterSearch =>
      simp only [bindStmt] at h
      split at h
      · rename_i heq
        simp only [Except.error.injEq] at h
        subst h
        exact resolveArgs_error_pos heq
      · exact Except.noConfusion h
      · simp only [Except.error.injEq] at h
        subst h
        decide
  | masterTables => simp [bindStmt] at h
  | pragmaTableInfo t => simp [bindStmt] at h
  | pgInfoSchemaColumns => simp [bindStmt] at h
  | pgColSearch => simp [bindStmt] at h

/-- Every error the modelled sqlite engine raises carries a non-empty
message. -/
theorem sqliteRun_error_pos {file : DbFile} {g : GroundStmt} {e : String}
    (h : sqliteRun file g = .error e) : 0 < e.length := by
  cases g with
  | createTable t cols =>
      simp only [sqliteRun] at h
      split at h
      · simp only [Except.error.injEq] at h
        subst h
        apply append3_len_pos
        decide
      · exact Except.noConfusion h
  | insertInto t cols vals =>
      simp only [sqliteRun] at h
      split at h
      · simp only [Except.error.injEq] at h
        subst h
        apply append_len_pos
        decide
      · split at h
        · simp only [Except.error.injEq] at h
          subst h
          apply append_len_pos_right
          decide
        · split at h
          · simp only [Except.error.injEq] at h
            subst h
            apply append_len_pos
            apply append_len_pos_right
            decide
          · exact Except.noConfusion h
  | selectWhere cols t cond =>
      simp only [sqliteRun] at h
      split at h
      · simp only [Except.error.injEq] at h
        subst h
        apply append_len_pos
        decide
      · split at h
        · simp only [Except.error.injEq] at h
          subst h
          apply append_len_pos
          decide
        · split at h
          · split at h
            · simp only [Except.error.injEq] at h
              subst h
              apply append_len_pos
              decide
            · exact Except.noConfusion h
          · exact Except.noConfusion h
  | masterSearch p1 p2 => simp [sqliteRun] at h
  | masterTables => simp [sqliteRun] at h
  | pragmaTableInfo t =>
      simp only [sqliteRun] at h
      split at h
      · exact Except.noConfusion h
      · exact Except.noConfusion h
  | pgInfoSchemaColumns =>
      simp only [sqliteRun, Except.error.injEq] at h
      subst h
      decide
  | pgColSearch =>
      simp only [sqliteRun, Except.error.injEq] at h
      subst h
      decide

/-- Any error raised inside `execute_query`'s `try` block renders to a
non-empty message. -/
theorem executeQueryTry_error_pos {env : Env} {w : World} {s : ManagerState}
    {n : String} {q : SqlStmt} {p : Option (List (String × SqlValue))}
    {e : String} (hEnv : EnvWF env)
    (h : (executeQueryTry env w s n q p).1 = .error e) : 0 < e.length := by
  unfold executeQueryTry at h
  split at h
  · -- unregistered name: ValueError "Database {n} not found"
    simp only [Except.error.injEq] at h
    subst h
    apply append3_len_pos
    decide
  · split at h
    · -- PostgreSQL
      split at h
      · -- missing pool: KeyError
        simp only [Except.error.injEq] at h
        subst h
        apply append3_len_pos
        decide
      · split at h
        · rename_i heq
          simp only [Except.error.injEq] at h
          subst h
          exact hEnv _ _ _ _ heq
        · exact Except.noConfusion h
    · -- SQLite
      split at h
      · rename_i heq
        simp only [Except.error.injEq] at h
        subst h
        exact bindStmt_error_pos heq
      · split at h
        · rename_i heq
          simp only [Except.error.injEq] at h
          subst h
          exact sqliteRun_error_pos heq
        · exact Except.noConfusion h
    · -- unsupported type: ValueError
      simp only [Except.error.injEq] at h
      subst h
      apply append_len_pos
      decide

/-- An erroring `try` block leaves the filesystem unchanged. -/
theorem executeQueryTry_error_world {env : Env} {w : World} {s : ManagerState}
    {n : String} {q : SqlStmt} {p : Option (List (String × SqlValue))}
    {e : String} (h : (executeQueryTry env w s n q p).1 = .error e) :
    (executeQueryTry env w s n q p).2.1 = w := by
  unfold executeQueryTry at h ⊢
  cases hc : List.lookup n s.configs with
  | none => simp only [hc]
  | some config =>
      simp only [hc] at h ⊢
      cases htype : config.type with
      | postgresql =>
          simp only [htype] at h ⊢
          cases hp : List.lookup n s.connection_pools with
          | none => simp only [hp]
          | some pool =>
              simp only [hp] at h ⊢
              cases hf : env.pgFetch pool.connString q (paramVals p) with
              | error e2 => simp only [hf]
              | ok rows =>
                  simp only [hf] at h
                  exact Except.noConfusion h
      | sqlite =>
          simp only [htype] at h ⊢
          cases hb : bindStmt (p.getD []) q with
          | error e2 => simp only [hb]
          | ok g =>
              simp only [hb] at h ⊢
              cases hr : sqliteRun (sqliteConnect w config.database) g with
              | error e2 => simp only [hr]
              | ok val =>
                  obtain ⟨f2, rows, desc⟩ := val
                  simp only [hr] at h
                  exact Except.noConfusion h
      | mysql => simp only [htype]
      | mongodb => simp only [htype]

/-- `execute_query` on an unregistered name: the `ValueError` from
`get_connection` is caught by the blanket `except`, yielding a failure
`QueryResult` with the not-found message; the filesystem is untouched and
no connection is ever acquired (the empty event trace). -/
theorem executeQuery_unregistered {env : Env} {w : World} {s : ManagerState}
    {n : String} (q : SqlStmt) (p : Option (List (String × SqlValue)))
    (h : List.lookup n s.configs = none) :
    executeQuery env w s n q p = (failRes n q (notFoundMsg n), w, []) := by
  unfold executeQuery executeQueryTry
  rw [h]

/-- A key absent from an association list is not found by `lookup`. -/
theorem lookup_eq_none_of_not_mem {α : Type} {n : String} :
    ∀ {l : List (String × α)}, n ∉ l.map Prod.fst → List.lookup n l = none := by
  intro l
  induction l with
  | nil => intro _; rfl
  | cons kv t ih =>
      intro h
      obtain ⟨k, v⟩ := kv
      simp only [List.map_cons, List.mem_cons, not_or] at h
      have hbeq : (n == k) = false := beq_eq_false_iff_ne.mpr h.1
      simp only [List.lookup, hbeq]
      exact ih h.2

/-- Deleting a key from a duplicate-free association list (Python
`del d[k]`) makes subsequent lookups of that key fail. -/
theorem lookup_alErase_self {α : Type} {n : String} :
    ∀ {l : List (String × α)}, (l.map Prod.fst).Nodup →
      List.lookup n (alErase n l) = none := by
  intro l
  induction l with
  | nil => intro _; rfl
  | cons kv t ih =>
      intro h
      obtain ⟨k, v⟩ := kv
      simp only [List.map_cons, List.nodup_cons] at h
      by_cases hk : k = n
      · subst hk
        simp only [alErase, if_pos rfl]
        exact lookup_eq_none_of_not_mem h.1
      · simp only [alErase, if_neg hk]
        have hbeq : (n == k) = false :=
          beq_eq_false_iff_ne.mpr (fun hnk => hk hnk.symm)
        simp only [List.lookup, hbeq]
        exact ih h.2

/-- After a successful `remove_database`, the config dict no longer holds
the entry (whichever pool branch was taken). -/
theorem removeDatabase_configs {s : ManagerState} {n : String}
    (h : (List.lookup n s.configs).isSome) :
    ((removeDatabase s n).2.1).configs = alErase n s.configs := by
  unfold removeDatabase
  cases hc : List.lookup n s.configs with
  | none => rw [hc] at h; simp at h
  | some c =>
      simp only [hc]
      cases hp : List.lookup n s.connection_pools with
      | none => simp only [hp]
      | some pool => simp only [hp]

/-- Binding the `sqlite_master` search query (two positional placeholders)
against any dict raises `ProgrammingError`, independent of the dict. -/
theorem masterSearch_bind_fails (ps : List (String × SqlValue)) :
    bindStmt ps SqlStmt.masterSearch
      = .error ("Binding " ++ toString 1 ++
          " has no name, but you supplied a dictionary (which has only names).") := rfl

/-- `execute_query` of the `sqlite_master` search query against a
registered sqlite backend always fails on the dict-vs-positional binding
and leaves the filesystem unchanged. -/
theorem executeQuery_masterSearch_sqlite (env : Env) (w : World)
    {s : ManagerState} {k : String} {c : DatabaseConfig}
    (ps : Option (List (String × SqlValue)))
    (hs : List.lookup k s.configs = some c) (htype : c.type = .sqlite) :
    executeQuery env w s k .masterSearch ps
      = (failRes k .masterSearch ("Binding " ++ toString 1 ++
          " has no name, but you supplied a dictionary (which has only names)."),
         w, connEvents k) := by
  unfold executeQuery executeQueryTry
  simp only [hs, htype, masterSearch_bind_fails]

/-- The fan-out loop produces exactly one result entry, in order, per
active config entry. -/
theorem executeAll_fold_keys (env : Env) (s : ManagerState) (q : SqlStmt)
    (p : Option (List (String × SqlValue))) :
    ∀ (l : List (String × DatabaseConfig)) (acc : List (String × QueryResult) × World),
      ((l.foldl (executeAllStep env s q p) acc).1.map Prod.fst)
        = acc.1.map Prod.fst ++ (l.filter (fun e => e.2.is_active)).map Prod.fst := by
  intro l
  induction l with
  | nil => intro acc; simp
  | cons e t ih =>
      intro acc
      simp only [List.foldl_cons, List.filter_cons]
      rw [ih]
      by_cases h : e.2.is_active
      · simp [executeAllStep, h]
      · simp [executeAllStep, h]

/-- `searchStep` appends exactly one result entry for an active config
entry and none for an inactive one. -/
theorem searchStep_keys (env : Env) (s : ManagerState) (term tp : String)
    (acc : List (String × List Row) × World × Option QueryResult)
    (e : String × DatabaseConfig) :
    ((searchStep env s term tp acc e).1.map Prod.fst)
      = acc.1.map Prod.fst ++ (if e.2.is_active then [e.1] else []) := by
  unfold searchStep
  by_cases h : e.2.is_active
  · simp only [h, not_true_eq_false, if_neg (by simp : ¬ (False : Prop))]
    cases e.2.type
    · simp
    · simp
    · cases acc.2.2 <;> simp
    · cases acc.2.2 <;> simp
  · simp [h]

/-- The search loop produces exactly one result entry, in order, per
active config entry. -/
theorem search_fold_keys (env : Env) (s : ManagerState) (term tp : String) :
    ∀ (l : List (String × DatabaseConfig))
      (acc : List (String × List Row) × World × Option QueryResult),
      ((l.foldl (searchStep env s term tp) acc).1.map Prod.fst)
        = acc.1.map Prod.fst ++ (l.filter (fun e => e.2.is_active)).map Prod.fst := by
  intro l
  induction l with
  | nil => intro acc; simp
  | cons e t ih =>
      intro acc
      simp only [List.foldl_cons, List.filter_cons]
      rw [ih, searchStep_keys]
      by_cases h : e.2.is_active
      · simp [h]
      · simp [h]

/-- `searchStep` only ever appends to the results accumulator. -/
theorem searchStep_res (env : Env) (s : ManagerState) (term tp : String)
    (acc : List (String × List Row) × World × Option QueryResult)
    (e : String × DatabaseConfig) :
    (searchStep env s term tp acc e).1
      = acc.1 ++ (searchStep env s term tp ([], acc.2.1, acc.2.2) e).1 := by
  unfold searchStep
  by_cases h : e.2.is_active
  · simp only [h]
    cases e.2.type
    · simp
    · simp
    · cases acc.2.2 <;> simp
    · cases acc.2.2 <;> simp
  · simp [h]

/-- The world/last-result parts of `searchStep` do not depend on the
results accumulated so far. -/
theorem searchStep_rest (env : Env) (s : ManagerState) (term tp : String)
    (acc : List (String × List Row) × World × Option QueryResult)
    (e : String × DatabaseConfig) :
    (searchStep env s term tp acc e).2
      = (searchStep env s term tp ([], acc.2.1, acc.2.2) e).2 := by
  unfold searchStep
  by_cases h : e.2.is_active
  · simp only [h]
    cases e.2.type
    · simp
    · simp
    · cases acc.2.2 <;> simp
    · cases acc.2.2 <;> simp
  · simp [h]

/-- The search loop's results are the accumulator followed by the entries
produced from the remaining configs. -/
theorem search_fold_append (env : Env) (s : ManagerState) (term tp : String) :
    ∀ (l : List (String × DatabaseConfig))
      (acc : List (String × List Row) × World × Option QueryResult),
      ((l.foldl (searchStep env s term tp) acc).1)
        = acc.1 ++ ((l.foldl (searchStep env s term tp) ([], acc.2.1, acc.2.2)).1) := by
  intro l
  induction l with
  | nil => intro acc; simp
  | cons e t ih =>
      intro acc
      simp only [List.foldl_cons]
      rw [ih (searchStep env s term tp acc e),
        ih (searchStep env s term tp ([], acc.2.1, acc.2.2) e)]
      rw [searchStep_res env s term tp acc e]
      rw [searchStep_rest env s term tp acc e]
      simp [List.append_assoc]

/-- Lookups fall through an association-list prefix that misses the key. -/
theorem lookup_append_right {α : Type} {n : String} :
    ∀ {A B : List (String × α)}, List.lookup n A = none →
      List.lookup n (A ++ B) = List.lookup n B := by
  intro A
  induction A with
  | nil => intro B _; rfl
  | cons kv t ih =>
      intro B h
      obtain ⟨k, v⟩ := kv
      cases hbeq : (n == k) with
      | true =>
          simp only [List.lookup, hbeq] at h
          exact Option.noConfusion h
      | false =>
          simp only [List.cons_append, List.lookup, hbeq] at h ⊢
          exact ih h

/-- Inside `search_across_databases`, a registered active sqlite backend
always contributes the empty list: the dict parameters never bind against
the positional placeholders of the catalog search query. -/
theorem search_fold_sqlite_value (env : Env) (s : ManagerState) (term tp : String) :
    ∀ (l : List (String × DatabaseConfig)) (w : World) (lr : Option QueryResult)
      (n : String) (c : DatabaseConfig),
      List.lookup n l = some c → c.is_active = true → c.type = .sqlite →
      List.lookup n s.configs = some c →
      List.lookup n ((l.foldl (searchStep env s term tp) ([], w, lr)).1) = some [] := by
  intro l
  induction l with
  | nil => intro w lr n c hl; simp at hl
  | cons e t ih =>
      intro w lr n c hl hact htype hs
      obtain ⟨k, cfg⟩ := e
      simp only [List.foldl_cons]
      by_cases hk : n = k
      · subst hk
        have hcfg : cfg = c := by
          simp only [List.lookup, beq_self_eq_true] at hl
          exact Option.some_injective _ hl
        subst hcfg
        have hq := executeQuery_masterSearch_sqlite env w
          (some (searchParams term tp)) hs htype
        have hstep : searchStep env s term tp ([], w, lr) (n, cfg)
            = ([(n, ([] : List Row))], w,
               some (failRes n .masterSearch ("Binding " ++ toString 1 ++
                 " has no name, but you supplied a dictionary (which has only names).")))
            := by
          unfold searchStep
          simp only [hact, htype, hq, failRes]
          simp
        rw [hstep, search_fold_append]
        simp [List.lookup]
      · have hbeq : (n == k) = false := beq_eq_false_iff_ne.mpr hk
        have hl' : List.lookup n t = some c := by
          simpa only [List.lookup, hbeq] using hl
        rw [search_fold_append, lookup_append_right]
        · exact ih _ _ n c hl' hact htype hs
        · apply lookup_eq_none_of_not_mem
          intro hmem
          rw [searchStep_keys] at hmem
          simp at hmem
          exact hk hmem.2

/-! ## The claims -/

/-- **C1** (code_bug evidence).  The claim states that when the connection
setup of `add_database` fails (here: the asyncpg driver is unavailable for
a PostgreSQL config), the call returns failure *and the registry is left
exactly as it was before the call*.  Evaluating the model at that failing
input shows the second half is false on the code: `add_database` stores
`configs[name]` before `_setup_postgresql` runs and its `except` clause
never removes it, so the call returns `False` while the config entry stays
registered (with no pool and no connection entry). -/
theorem C1_add_database_retains_config_on_setup_failure :
    (addDatabase envNoAsyncpg emptyManager pgShopConfig).1 = false ∧
    List.lookup "pgshop" (addDatabase envNoAsyncpg emptyManager pgShopConfig).2.configs
      = some pgShopConfig ∧
    (addDatabase envNoAsyncpg emptyManager pgShopConfig).2.connection_pools = [] ∧
    (addDatabase envNoAsyncpg emptyManager pgShopConfig).2.connections = [] := by
  refine ⟨rfl, rfl, rfl, rfl⟩

/-- **C2** (code_bug evidence).  The claim states that a non-SELECT
statement commits and that `row_count` reports rows affected.  Evaluating
the model on the spec's own scenario (`CREATE TABLE items …` then a
named-placeholder `INSERT` of Hammer/tools on backend `shop`): the insert
binds and executes successfully and would affect one row, but the returned
`row_count` is `0` (`len(fetchall())` of a statement with no result set),
the connection is closed without `commit()` so the filesystem is unchanged,
and a subsequent `SELECT` on a fresh connection sees no row. -/
theorem C2_non_select_not_committed_and_row_count_zero :
    bindStmt hammerParams insertNamed
      = .ok (.insertInto "items" ["name", "category"]
          [.text "Hammer", .text "tools"]) ∧
    insertNamedRun.1.success = true ∧
    insertNamedRun.1.row_count = 0 ∧
    insertNamedRun.1.data = [] ∧
    insertNamedRun.1.columns = [] ∧
    insertNamedRun.2.1 = wAfterCreate ∧
    (executeQuery envSqliteOnly insertNamedRun.2.1 shopState "shop"
        selectToolsLit none).1.data = [] := by
  refine ⟨rfl, rfl, rfl, rfl, rfl, rfl, rfl⟩

/-- **C3** (confirmed).  Every `QueryResult` produced by `execute_query`
satisfies the invariant: on failure the rows are empty and the error
message is present and non-empty; on success the error is absent.  The
`EnvWF` hypothesis states that the abstract PostgreSQL driver renders its
exceptions to non-empty strings (as real drivers do); every other error
source is modelled concretely and proven non-empty. -/
theorem C3_query_result_invariant :
    ∀ env w s n q p, EnvWF env →
      (((executeQuery env w s n q p).1.success = false →
         (executeQuery env w s n q p).1.data = [] ∧
         ∃ m, (executeQuery env w s n q p).1.error = some m ∧ 0 < m.length) ∧
       ((executeQuery env w s n q p).1.success = true →
         (executeQuery env w s n q p).1.error = none)) := by
  intro env w s n q p hEnv
  unfold executeQuery
  cases ht : executeQueryTry env w s n q p with
  | mk t rest =>
      obtain ⟨w2, evs⟩ := rest
      cases t with
      | ok dc =>
          obtain ⟨data, columns⟩ := dc
          constructor
          · intro hs
            simp [okRes] at hs
          · intro _
            rfl
      | error e =>
          constructor
          · intro _
            refine ⟨rfl, e, rfl, ?_⟩
            exact executeQueryTry_error_pos hEnv (by rw [ht])
          · intro hs
            simp [failRes] at hs

/-- **C3 witness**: the invariant instantiated at a concrete failed query
(`SELECT` from a missing table on the registered sqlite backend). -/
theorem C3_query_result_invariant_witness :
    EnvWF envSqliteOnly ∧
    (((executeQuery envSqliteOnly emptyWorld shopState "shop" anyQuery none).1.success = false →
       (executeQuery envSqliteOnly emptyWorld shopState "shop" anyQuery none).1.data = [] ∧
       ∃ m, (executeQuery envSqliteOnly emptyWorld shopState "shop" anyQuery none).1.error = some m ∧
         0 < m.length) ∧
     ((executeQuery envSqliteOnly emptyWorld shopState "shop" anyQuery none).1.success = true →
       (executeQuery envSqliteOnly emptyWorld shopState "shop" anyQuery none).1.error = none)) := by
  have hwf : EnvWF envSqliteOnly := by
    intro cs q vs m h
    cases h
    decide
  exact ⟨hwf, C3_query_result_invariant envSqliteOnly emptyWorld shopState "shop" anyQuery none hwf⟩

/-- **C4** (confirmed).  The fan-out result map of
`execute_query_all_databases` has, in registry order, exactly one entry
per backend that is active at call time (hence none for inactive
backends, and exactly one each when the registry keys are duplicate-free,
as Python dict keys are); and a failing backend leaves the shared
filesystem untouched, so it cannot alter any other backend's result.  The
call is a total function of the model — `execute_query` catches every
backend-level exception — so it never raises. -/
theorem C4_execute_all_one_entry_per_active_backend :
    (∀ env w s q p,
        ((executeQueryAllDatabases env w s q p).1.map Prod.fst
          = (s.configs.filter (fun e => e.2.is_active)).map Prod.fst) ∧
        ((s.configs.map Prod.fst).Nodup →
          ((executeQueryAllDatabases env w s q p).1.map Prod.fst).Nodup)) ∧
    (∀ env w s n q p, (executeQuery env w s n q p).1.success = false →
        (executeQuery env w s n q p).2.1 = w) := by
  constructor
  · intro env w s q p
    have hkeys : (executeQueryAllDatabases env w s q p).1.map Prod.fst
        = (s.configs.filter (fun e => e.2.is_active)).map Prod.fst := by
      unfold executeQueryAllDatabases
      rw [executeAll_fold_keys]
      simp
    refine ⟨hkeys, ?_⟩
    intro hnd
    rw [hkeys]
    exact ((List.filter_sublist s.configs).map Prod.fst).nodup hnd
  · intro env w s n q p hfail
    unfold executeQuery at hfail ⊢
    cases ht : executeQueryTry env w s n q p with
    | mk t rest =>
        obtain ⟨w2, evs⟩ := rest
        rw [ht] at hfail
        cases t with
        | ok dc =>
            obtain ⟨data, columns⟩ := dc
            simp [okRes] at hfail
        | error e =>
            have : (executeQueryTry env w s n q p).2.1 = w :=
              executeQueryTry_error_world (by rw [ht])
            rw [ht] at this
            exact this

/-- **C4 witness**: instantiated on the one-backend registry; the probe
query fails (missing table) and leaves the filesystem unchanged, and the
result map's keys are exactly the active backends. -/
theorem C4_execute_all_one_entry_per_active_backend_witness :
    ((shopState.configs.map Prod.fst).Nodup) ∧
    (((executeQueryAllDatabases envSqliteOnly emptyWorld shopState anyQuery none).1.map Prod.fst).Nodup) ∧
    ((executeQuery envSqliteOnly emptyWorld shopState "shop" anyQuery none).1.success = false) ∧
    ((executeQuery envSqliteOnly emptyWorld shopState "shop" anyQuery none).2.1 = emptyWorld) := by
  refine ⟨by decide, ?_, by decide, ?_⟩
  · exact (C4_execute_all_one_entry_per_active_backend.1 envSqliteOnly emptyWorld
      shopState anyQuery none).2 (by decide)
  · exact C4_execute_all_one_entry_per_active_backend.2 envSqliteOnly emptyWorld
      shopState "shop" anyQuery none (by decide)

/-- **C5** (code_bug evidence).  The claim (and the repository's own test
`test_sqlite_query_with_dictionary_parameters`) expects the positional
insert and both read-backs to succeed and return the inserted row.
Evaluating the model on that exact scenario: the positional insert fails
with `sqlite3`'s `ProgrammingError` (a dict cannot bind `?` placeholders),
the named read-back succeeds but returns no rows (nothing was inserted,
and DML is never committed anyway), and the positional read-back fails
with the same binding error. -/
theorem C5_round_trip_fails :
    (executeQuery envSqliteOnly wAfterCreate shopState "shop" insertPositional
        (some hammerParams)).1
      = failRes "shop" insertPositional bindErrMsg ∧
    (executeQuery envSqliteOnly wAfterCreate shopState "shop" selectNamed
        (some categoryParams)).1.success = true ∧
    (executeQuery envSqliteOnly wAfterCreate shopState "shop" selectNamed
        (some categoryParams)).1.data = [] ∧
    (executeQuery envSqliteOnly wAfterCreate shopState "shop" selectNamed
        (some categoryParams)).1.row_count = 0 ∧
    (executeQuery envSqliteOnly wAfterCreate shopState "shop" selectPositional
        (some categoryParams)).1
      = failRes "shop" selectPositional bindErrMsg := by
  refine ⟨rfl, rfl, rfl, rfl, rfl⟩

/-- **C6 counterexample**: a registered, active sqlite backend whose file
contains a table named `widgets`.  `Search("widgets")` returns the entry
`("shop", [])` — no match with `table_name = "widgets"` — because the
dict parameters cannot bind the positional placeholders of the catalog
query.  The second conjunct shows the ground catalog query *would* have
returned the widgets row had binding succeeded, so the claim as stated is
false at this input. -/
theorem C6_widgets_search_returns_empty :
    (searchAcrossDatabases envSqliteOnly widgetsWorld shopState "widgets").1
      = [("shop", [])] ∧
    sqliteRun widgetsFile (.masterSearch (.text "%") (.text "%widgets%"))
      = .ok (widgetsFile,
          [[("table_name", .text "widgets"),
            ("sql", .text (renderCreate "widgets" ["id", "description"]))]],
          some ["table_name", "sql"]) := by
  constructor
  · rfl
  · rfl

/-- **C6 amended** (proved).  `search_across_databases` returns one entry
per active backend, in registry order; but a backend whose search errored
contributes the empty list exactly like a zero-match backend (the two are
*not* distinguishable), and in particular every registered active sqlite
backend — including one containing a `widgets` table — contributes `[]`,
because the dict parameters never bind the query's positional
placeholders. -/
theorem C6_search_amended :
    ∀ env w s term tp,
      (((searchAcrossDatabases env w s term tp).1.map Prod.fst)
         = (s.configs.filter (fun e => e.2.is_active)).map Prod.fst) ∧
      (∀ n c, List.lookup n s.configs = some c → c.is_active = true →
         c.type = DatabaseType.sqlite →
         List.lookup n (searchAcrossDatabases env w s term tp).1 = some []) := by
  intro env w s term tp
  constructor
  · unfold searchAcrossDatabases
    rw [search_fold_keys]
    simp
  · intro n c hl hact htype
    unfold searchAcrossDatabases
    exact search_fold_sqlite_value env s term tp s.configs w none n c hl hact htype hl

/-- **C6 witness**: the amended statement applied to the widgets
fixture. -/
theorem C6_search_amended_witness :
    List.lookup "shop" shopState.configs = some shopConfig ∧
    shopConfig.is_active = true ∧
    shopConfig.type = DatabaseType.sqlite ∧
    List.lookup "shop"
        (searchAcrossDatabases envSqliteOnly widgetsWorld shopState "widgets" "%").1
      = some [] := by
  refine ⟨by decide, by decide, by decide, ?_⟩
  exact (C6_search_amended envSqliteOnly widgetsWorld shopState "widgets" "%").2
    "shop" shopConfig (by decide) (by decide) (by decide)

/-- **C7 counterexample**: `execute_query` against an unregistered name
does *not* raise the NotFound error to the caller.  The `ValueError`
raised inside `get_connection` (second conjunct: the `try` body errors
with the not-found message) is caught by `execute_query`'s blanket
`except`, and the call returns an ordinary failure `QueryResult` — and
indeed acquires no connection (empty event trace) and leaves the world
untouched. -/
theorem C7_unregistered_returns_failed_result :
    executeQuery envSqliteOnly emptyWorld emptyManager "shop" anyQuery none
      = (failRes "shop" anyQuery (notFoundMsg "shop"), emptyWorld, []) ∧
    (executeQueryTry envSqliteOnly emptyWorld emptyManager "shop" anyQuery none).1
      = .error (notFoundMsg "shop") := by
  constructor
  · rfl
  · rfl

/-- **C7 amended** (proved).  For every query and parameter map, calling
`execute_query` with an unregistered backend name returns (it does not
raise) a `QueryResult` with `success = false` and the error message
`"Database {name} not found"`; the filesystem is unchanged and no
connection is acquired (the event trace is empty). -/
theorem C7_amended_not_found_captured :
    ∀ env w s n q p, List.lookup n s.configs = none →
      executeQuery env w s n q p = (failRes n q (notFoundMsg n), w, []) := by
  intro env w s n q p h
  exact executeQuery_unregistered q p h

/-- **C7 witness**: the amended statement at the empty registry. -/
theorem C7_amended_not_found_captured_witness :
    List.lookup "shop" emptyManager.configs = none ∧
    executeQuery envSqliteOnly emptyWorld emptyManager "shop" anyQuery none
      = (failRes "shop" anyQuery (notFoundMsg "shop"), emptyWorld, []) :=
  ⟨rfl, C7_amended_not_found_captured envSqliteOnly emptyWorld emptyManager
    "shop" anyQuery none rfl⟩

/-- **C8** (confirmed).  `add_database` with an already-registered name
fails (returns `False` — the behaviour the spec's taxonomy labels
`DuplicateName`) and returns before mutating anything: the whole manager
state, including the original config entry and its pool, is exactly the
state before the call. -/
theorem C8_duplicate_add_unchanged :
    ∀ env s c, (List.lookup c.name s.configs).isSome →
      addDatabase env s c = (false, s) := by
  intro env s c h
  unfold addDatabase
  rw [if_pos h]

/-- **C8 witness**: re-adding the registered `shop` backend. -/
theorem C8_duplicate_add_unchanged_witness :
    (List.lookup shopConfig.name shopState.configs).isSome = true ∧
    addDatabase envSqliteOnly shopState shopConfig = (false, shopState) :=
  ⟨by decide, C8_duplicate_add_unchanged envSqliteOnly shopState shopConfig (by decide)⟩

/-- **C9 counterexample**: removing a registered backend that has a live
pool emits the registry-mutation events in the order
`removeConfig; closePool` — the route deletes `self.configs[name]` first
and closes the pool afterwards — so the claim's "closes the backend's
pool/handle before removing the config" is false at this input. -/
theorem C9_config_removed_before_pool_closed :
    (removeDatabase pgShopState "shop").2.2
      = [Event.removeConfig "shop", Event.closePool "shop"] ∧
    poolClosedFirst (removeDatabase pgShopState "shop").2.2 "shop" = false := by
  constructor
  · rfl
  · rfl

/-- **C9 amended** (proved).  `remove_database` on an absent name raises —
but as HTTP 500 whose detail embeds the 404 message, because the 404
`HTTPException` raised inside the `try` is itself caught by the route's
`except Exception` and re-raised as 500; on a registered name with a pool
it removes the config *first and then* closes the pool; and afterwards
every `execute_query` against that name fails with the not-found
message. -/
theorem C9_amended_remove_database :
    ∀ s n,
      (List.lookup n s.configs = none →
         removeDatabase s n
           = (.error ⟨500, httpExcStr ⟨404, notFoundMsg n⟩⟩, s, [])) ∧
      ((List.lookup n s.configs).isSome →
         (List.lookup n s.connection_pools).isSome →
         (removeDatabase s n).2.2 = [Event.removeConfig n, Event.closePool n]) ∧
      ((s.configs.map Prod.fst).Nodup → (List.lookup n s.configs).isSome →
         ∀ env w q p,
           (executeQuery env w (removeDatabase s n).2.1 n q p).1
             = failRes n q (notFoundMsg n)) := by
  intro s n
  refine ⟨?_, ?_, ?_⟩
  · intro h
    unfold removeDatabase
    rw [h]
  · intro hc hp
    cases hcl : List.lookup n s.configs with
    | none => rw [hcl] at hc; simp at hc
    | some c =>
        cases hpl : List.lookup n s.connection_pools with
        | none => rw [hpl] at hp; simp at hp
        | some pool =>
            unfold removeDatabase
            rw [hcl, hpl]
  · intro hnd hc env w q p
    have hcfg : ((removeDatabase s n).2.1).configs = alErase n s.configs :=
      removeDatabase_configs hc
    have hnone : List.lookup n ((removeDatabase s n).2.1).configs = none := by
      rw [hcfg]
      exact lookup_alErase_self hnd
    rw [executeQuery_unregistered q p hnone]

/-- **C9 witness**: both halves at concrete inputs — the empty registry
for the absent case, and the `pgShopState` fixture (registered backend
with a live pool) for the removal order and the post-removal query. -/
theorem C9_amended_remove_database_witness :
    List.lookup "shop" emptyManager.configs = none ∧
    removeDatabase emptyManager "shop"
      = (.error ⟨500, httpExcStr ⟨404, notFoundMsg "shop"⟩⟩, emptyManager, []) ∧
    (List.lookup "shop" pgShopState.configs).isSome = true ∧
    (List.lookup "shop" pgShopState.connection_pools).isSome = true ∧
    (pgShopState.configs.map Prod.fst).Nodup ∧
    (removeDatabase pgShopState "shop").2.2
      = [Event.removeConfig "shop", Event.closePool "shop"] ∧
    (executeQuery envSqliteOnly emptyWorld (removeDatabase pgShopState "shop").2.1
        "shop" anyQuery none).1
      = failRes "shop" anyQuery (notFoundMsg "shop") := by
  refine ⟨rfl, (C9_amended_remove_database emptyManager "shop").1 rfl,
    by decide, by decide, by decide, ?_, ?_⟩
  · exact (C9_amended_remove_database pgShopState "shop").2.1 (by decide) (by decide)
  · exact (C9_amended_remove_database pgShopState "shop").2.2 (by decide) (by decide)
      envSqliteOnly emptyWorld anyQuery none

/-- **C10** (confirmed).  For a registered backend whose engine is neither
PostgreSQL nor SQLite (MySQL or MongoDB), `get_database_schema` matches
neither engine branch, raises nothing, and falls off the end of the
function: it returns Python `None` (`none` in the model) rather than any
schema dict with `success = false`. -/
theorem C10_schema_none_for_unsupported_engine :
    ∀ env w s n c, List.lookup n s.configs = some c →
      (c.type = DatabaseType.mysql ∨ c.type = DatabaseType.mongodb) →
      getDatabaseSchema env w s n = (none, w) := by
  intro env w s n c hc ht
  unfold getDatabaseSchema
  rcases ht with h | h <;> simp only [hc, h]

/-- **C10 witness**: the registered MySQL backend. -/
theorem C10_schema_none_for_unsupported_engine_witness :
    List.lookup "metrics" mysqlState.configs = some mysqlConfig ∧
    (mysqlConfig.type = DatabaseType.mysql ∨ mysqlConfig.type = DatabaseType.mongodb) ∧
    getDatabaseSchema envSqliteOnly emptyWorld mysqlState "metrics" = (none, emptyWorld) :=
  ⟨by decide, Or.inl rfl,
    C10_schema_none_for_unsupported_engine envSqliteOnly emptyWorld mysqlState
      "metrics" mysqlConfig (by decide) (Or.inl rfl)⟩

end MCPHub
